import Mathlib

/-!
Verification development for the PySnake repository.

The repository contains three Snake variants:
* `src/retro_snake_game.py` — grid variant with a Menu/Playing/Paused/GameOver
  state machine, power-ups, obstacles and a high-score file (namespace `Retro`);
* `src/realistic_snake_game.py` — grid variant with a bounded apple spawner and
  a particle system (namespace `RG`);
* `src/realistic_snake.py` — grid variant with per-segment smoothing and an
  unbounded apple spawner (namespace `RS`).

The definitions below are shallow embeddings of the Python code.  Conventions:
* grid positions are pairs of integers (`Pos`);
* Python floats (particle coordinates, lifetimes, wall-clock times) are
  modelled as rationals — none of the verified properties depends on
  floating-point rounding;
* calls to `random.*` are modelled by explicit oracle inputs: a rejection
  sampling loop receives the list of cells the random generator would produce,
  and a loop that has not returned after consuming its whole stream is
  represented by the value `none` (for the unbounded `while True` loops this
  encodes divergence: no finite sequence of rejected draws makes them return);
* indexing `segments[0]` on an empty list (which would raise in Python and is
  unreachable from reachable game states) is modelled with `List.headI`.
-/

/-- Grid position: an integer cell coordinate pair. -/
abbrev Pos := Int × Int

/-- Direction enum shared by all variants (`class Direction(Enum)`). -/
inductive Direction where
  | up
  | down
  | left
  | right
deriving DecidableEq, Repr

/-- The `(dx, dy)` value attached to each `Direction` member. -/
def Direction.vec : Direction → Int × Int
  | .up => (0, -1)
  | .down => (0, 1)
  | .left => (-1, 0)
  | .right => (1, 0)

/-- The `opposite` dictionary used by `set_direction` in both realistic
variants. -/
def Direction.opposite : Direction → Direction
  | .up => .down
  | .down => .up
  | .left => .right
  | .right => .left

/-- `new_head = (head_x + dx, head_y + dy)` — the head step common to all
variants. -/
def stepPos (p : Pos) (d : Direction) : Pos :=
  (p.1 + d.vec.1, p.2 + d.vec.2)

namespace RG

/-- Particle of `realistic_snake_game.py` (`class Particle`): position,
velocity, remaining and initial lifetime.  Floats are modelled as rationals. -/
structure Particle where
  x : ℚ
  y : ℚ
  vx : ℚ
  vy : ℚ
  lifetime : ℚ
  max_lifetime : ℚ
deriving DecidableEq, Repr

/-- `Particle.update(dt)`: advance by velocity·dt, decrement lifetime. -/
def Particle.update (dt : ℚ) (p : Particle) : Particle :=
  { p with
    x := p.x + p.vx * dt
    y := p.y + p.vy * dt
    lifetime := p.lifetime - dt }

/-- `ParticleSystem.update(dt)`: first rebuild the list keeping only particles
with `lifetime > 0`, then update every survivor. -/
def particleSystemUpdate (dt : ℚ) (ps : List Particle) : List Particle :=
  (ps.filter (fun p => 0 < p.lifetime)).map (Particle.update dt)

/-- Snake of `realistic_snake_game.py` (`class Snake`).  The movement-cadence
timer fields (`move_timer`, `move_delay`) are omitted: no verified claim
concerns the cadence, only the discrete `move` itself. -/
structure Snake where
  segments : List Pos
  direction : Direction
  next_direction : Direction
  growing : Bool
deriving DecidableEq, Repr

/-- `Snake.set_direction(direction)`: with more than one segment the request is
ignored when it is the exact reverse of the current direction; with a single
segment it is always recorded. -/
def Snake.set_direction (s : Snake) (d : Direction) : Snake :=
  if s.segments.length > 1 then
    if d ≠ s.direction.opposite then { s with next_direction := d } else s
  else
    { s with next_direction := d }

/-- `Snake.move()`: commit the pending direction, insert the new head, then pop
the tail unless `growing` was set (in which case the flag is cleared). -/
def Snake.move (s : Snake) : Snake :=
  let dir := s.next_direction
  let newHead := stepPos s.segments.headI dir
  let inserted := newHead :: s.segments
  { s with
    direction := dir
    segments := if s.growing then inserted else inserted.dropLast
    growing := false }

/-- `Snake.grow()`. -/
def Snake.grow (s : Snake) : Snake := { s with growing := true }

/-- `Snake.get_head_position()` (`self.segments[0]`). -/
def Snake.get_head_position (s : Snake) : Pos := s.segments.headI

/-- `Snake.check_collision(x, y)`: membership in the segment list. -/
def Snake.check_collision (s : Snake) (p : Pos) : Bool :=
  decide (p ∈ s.segments)

/-- `Snake.check_self_collision()`: head against `segments[1:]`, evaluated on
the already-committed (post-move) body. -/
def Snake.check_self_collision (s : Snake) : Bool :=
  decide (s.get_head_position ∈ s.segments.tail)

/-- `Game.is_obstacle(x, y)`: the `Obstacle` class of this variant is a single
cell, so the obstacle set is a list of positions. -/
def is_obstacle (obstacles : List Pos) (p : Pos) : Bool :=
  obstacles.any (fun o => o = p)

/-- Rejection loop of `Game.spawn_apple` with its `attempts < 100` bound; the
stream argument lists the cells `random.randint` would produce. -/
def spawn_apple_aux (s : Snake) (obstacles : List Pos) :
    Nat → List Pos → Option Pos
  | 0, _ => none
  | _ + 1, [] => none
  | fuel + 1, d :: ds =>
    if !(s.check_collision d) && !(is_obstacle obstacles d) then some d
    else spawn_apple_aux s obstacles fuel ds

/-- `Game.spawn_apple()`: at most 100 attempts, after which the spawn is
skipped (`self.apple` is left unchanged). -/
def spawn_apple (s : Snake) (obstacles : List Pos) (draws : List Pos) :
    Option Pos :=
  spawn_apple_aux s obstacles 100 draws

end RG

namespace RS

/-- Position effect of `Snake.move()` in `realistic_snake.py`: every segment
records its previous position, the head advances, segment `i ≥ 1` takes
segment `i-1`'s previous position, and when `growing` a new segment is
appended at the old tail position (`tail.prev`). -/
def moveSegs (segs : List Pos) (d : Direction) (growing : Bool) : List Pos :=
  match segs with
  | [] => []
  | h :: t =>
    let newHead := stepPos h d
    let shifted := newHead :: (h :: t).dropLast
    if growing then shifted ++ [(h :: t).getLast (List.cons_ne_nil h t)]
    else shifted

/-- `Snake.check_collision(x, y)` of `realistic_snake.py`. -/
def check_collision (segs : List Pos) (p : Pos) : Bool :=
  segs.any (fun q => q = p)

/-- `Snake.check_self_collision()` of `realistic_snake.py`: head position
against every segment in `segments[1:]`, after the move is committed. -/
def check_self_collision (segs : List Pos) : Bool :=
  decide (segs.headI ∈ segs.tail)

/-- `Game.is_obstacle(x, y)` of `realistic_snake.py` (single-cell rocks). -/
def is_obstacle (obstacles : List Pos) (p : Pos) : Bool :=
  obstacles.any (fun o => o = p)

/-- `Game.spawn_apple()` of `realistic_snake.py`: an unbounded `while True`
rejection loop.  `none` means the loop has not returned after consuming every
draw the random generator produced. -/
def spawn_apple (segs obstacles : List Pos) : List Pos → Option Pos
  | [] => none
  | d :: ds =>
    if !(check_collision segs d) && !(is_obstacle obstacles d) then some d
    else spawn_apple segs obstacles ds

end RS

namespace Retro

/-- `GRID_WIDTH = WINDOW_WIDTH // GRID_SIZE = 800 // 20`. -/
def GRID_WIDTH : Int := 40

/-- `GRID_HEIGHT = WINDOW_HEIGHT // GRID_SIZE = 600 // 20`. -/
def GRID_HEIGHT : Int := 30

/-- `class GameState(Enum)` of `retro_snake_game.py`. -/
inductive GameState where
  | menu
  | playing
  | paused
  | gameOver
deriving DecidableEq, Repr

/-- `class PowerUpType(Enum)`. -/
inductive PowerUpType where
  | speed_boost
  | slow_down
  | grow
  | shrink
  | invincibility
  | double_points
deriving DecidableEq, Repr

/-- `@dataclass PowerUp`; the render-only `color` field is omitted, wall-clock
times are rationals. -/
structure PowerUp where
  x : Int
  y : Int
  type : PowerUpType
  duration : Int
  spawn_time : ℚ
deriving DecidableEq, Repr

/-- `@dataclass Obstacle`; the render-only `color`/`pattern` fields are
omitted. -/
structure Obstacle where
  x : Int
  y : Int
  width : Int
  height : Int
deriving DecidableEq, Repr

/-- `class Particle` of `retro_snake_game.py`: integer lifetime that ticks down
by one per frame, velocity damped by 0.98 (modelled exactly as 49/50); the
render-only `size` field is omitted. -/
structure Particle where
  x : ℚ
  y : ℚ
  vx : ℚ
  vy : ℚ
  lifetime : Int
  max_lifetime : Int
deriving DecidableEq, Repr

/-- `Particle.update()`. -/
def Particle.update (p : Particle) : Particle :=
  { p with
    x := p.x + p.vx
    y := p.y + p.vy
    lifetime := p.lifetime - 1
    vx := p.vx * (49 / 50)
    vy := p.vy * (49 / 50) }

/-- The `effect_timers` dict: one optional countdown per effect key. -/
structure Effects where
  speed_boost : Option Int
  slow_down : Option Int
  invincibility : Option Int
  double_points : Option Int
deriving DecidableEq, Repr

/-- Mutable state of `class SnakeGame` (the fields the game logic touches;
rendering-only members excluded).  `hs_file` models the content of
`snake_highscore.txt`, so that the file reads/writes are pure. -/
structure Game where
  state : GameState
  snake : List Pos
  direction : Direction
  food : Pos
  score : Int
  high_score : Int
  speed : Int
  base_speed : Int
  power_ups : List PowerUp
  obstacles : List Obstacle
  effects : Effects
  invincible : Bool
  double_points : Bool
  game_time : Int
  level : Int
  particles : List Particle
  screen_shake : Int
  hs_file : Option String
deriving DecidableEq, Repr

/-- Oracle for every `random.*` call one `update_game` frame can make:
the power-up spawn roll `random.randint(1, 200)`, the chosen power-up type,
the cell streams the two rejection-sampling loops would draw, the regenerated
obstacles of a level-up, and the randomized particle bursts. -/
structure Rng where
  powerRoll : Nat
  powerType : PowerUpType
  powerDraws : List Pos
  foodDraws : List Pos
  foodParticles : List Particle
  levelParticles : List Particle
  newObstacles : List Obstacle
  deathParticles : List Particle
  pickupParticles : List Particle
deriving DecidableEq, Repr

/-- `SnakeGame.is_obstacle_at(x, y)`: rectangular extent test over all
obstacles. -/
def is_obstacle_at (obstacles : List Obstacle) (p : Pos) : Bool :=
  obstacles.any (fun o =>
    o.x ≤ p.1 && p.1 < o.x + o.width && o.y ≤ p.2 && p.2 < o.y + o.height)

/-- `SnakeGame.check_collision(pos)`: wall, then membership in the *current*
(pre-move) snake list, then obstacles. -/
def check_collision (snake : List Pos) (obstacles : List Obstacle)
    (p : Pos) : Bool :=
  (p.1 < 0 || p.1 ≥ GRID_WIDTH || p.2 < 0 || p.2 ≥ GRID_HEIGHT)
    || decide (p ∈ snake)
    || is_obstacle_at obstacles p

/-- Rejection loop of `SnakeGame.spawn_food` — `while True` with no attempt
cap.  The argument lists the cells `random.randint` produces; `none` means the
loop has not returned after all of them were rejected. -/
def spawn_food (snake : List Pos) (obstacles : List Obstacle) :
    List Pos → Option Pos
  | [] => none
  | d :: ds =>
    if !(decide (d ∈ snake)) && !(is_obstacle_at obstacles d) then some d
    else spawn_food snake obstacles ds

/-- Rejection loop of `SnakeGame.spawn_power_up` — also `while True`; it
additionally rejects the food cell, but not the cells of other power-ups. -/
def spawn_power_up_draws (snake : List Pos) (food : Pos)
    (obstacles : List Obstacle) : List Pos → Option Pos
  | [] => none
  | d :: ds =>
    if !(decide (d ∈ snake)) && !(decide (d = food))
        && !(is_obstacle_at obstacles d) then some d
    else spawn_power_up_draws snake food obstacles ds

/-- `SnakeGame.spawn_power_up()`: skipped when three power-ups are already on
screen, otherwise appends a power-up with duration 300 at the first accepted
draw. -/
def spawn_power_up (g : Game) (rng : Rng) (now : ℚ) : Option Game :=
  if g.power_ups.length ≥ 3 then some g
  else
    match spawn_power_up_draws g.snake g.food g.obstacles rng.powerDraws with
    | none => none
    | some p =>
      some { g with
             power_ups := g.power_ups ++ [⟨p.1, p.2, rng.powerType, 300, now⟩] }

/-- Direction logic of `SnakeGame.handle_input` in the `PLAYING` state: each
arrow key sets the direction unless the current direction is its exact
opposite.  No body-length condition appears in this variant. -/
def handle_input_dir (cur : Direction) (key : Direction) : Direction :=
  match key with
  | .up => if cur ≠ .down then .up else cur
  | .down => if cur ≠ .up then .down else cur
  | .left => if cur ≠ .right then .left else cur
  | .right => if cur ≠ .left then .right else cur

/-- One `effect_timers` entry of `SnakeGame.update_effects`: the stored value
becomes `timer - 1`, but when the *old* timer is already `≤ 0` the entry is
deleted and the effect reverted (second component of the result). -/
def step_timer (t : Option Int) : Option Int × Bool :=
  match t with
  | none => (none, false)
  | some timer => if timer ≤ 0 then (none, true) else (some (timer - 1), false)

/-- `SnakeGame.update_effects()`. -/
def update_effects (g : Game) : Game :=
  let sb := step_timer g.effects.speed_boost
  let sd := step_timer g.effects.slow_down
  let inv := step_timer g.effects.invincibility
  let dp := step_timer g.effects.double_points
  { g with
    effects := ⟨sb.1, sd.1, inv.1, dp.1⟩
    speed := if sb.2 || sd.2 then g.base_speed else g.speed
    invincible := if inv.2 then false else g.invincible
    double_points := if dp.2 then false else g.double_points }

/-- One iteration of the `GROW` loop body:
`if self.snake: tail = self.snake[-1]; self.snake.append(tail)`. -/
def grow_once (snake : List Pos) : List Pos :=
  if snake = [] then snake else snake ++ [snake.getLastI]

/-- Iterated `self.snake.pop()` (each pop removes the last element). -/
def pop_n : Nat → List Pos → List Pos
  | 0, l => l
  | n + 1, l => pop_n n l.dropLast

/-- `SnakeGame.apply_power_up(power_up)`, including the `+5` collection
bonus. -/
def apply_power_up (g : Game) (pu : PowerUp) : Game :=
  let g1 :=
    match pu.type with
    | .speed_boost =>
      { g with
        speed := min (g.speed + 3) 20
        effects := { g.effects with speed_boost := some 300 } }
    | .slow_down =>
      { g with
        speed := max (g.speed - 2) 3
        effects := { g.effects with slow_down := some 300 } }
    | .grow => { g with snake := grow_once (grow_once (grow_once g.snake)) }
    | .shrink =>
      { g with
        snake := if g.snake.length > 3
                 then pop_n (min 2 (g.snake.length - 1)) g.snake
                 else g.snake }
    | .invincibility =>
      { g with
        invincible := true
        effects := { g.effects with invincibility := some 300 } }
    | .double_points =>
      { g with
        double_points := true
        effects := { g.effects with double_points := some 300 } }
  { g1 with score := g1.score + 5 }

/-- `list.remove(value)`: drop the first element equal to the argument. -/
def remove_first : List PowerUp → PowerUp → List PowerUp
  | [], _ => []
  | x :: xs, a => if x = a then xs else x :: remove_first xs a

/-- The power-up collection loop at the end of `update_game`: iterate over a
snapshot of `self.power_ups`; on a hit apply the power-up, remove it from the
live list, and emit a particle burst. -/
def pickup_loop (newHead : Pos) (rng : Rng) : Game → List PowerUp → Game
  | g, [] => g
  | g, pu :: rest =>
    if (pu.x, pu.y) = newHead then
      let g1 := apply_power_up g pu
      let g2 := { g1 with
                  power_ups := remove_first g1.power_ups pu
                  particles := g1.particles ++ rng.pickupParticles }
      pickup_loop newHead rng g2 rest
    else pickup_loop newHead rng g rest

/-- `SnakeGame.level_up()`: bump level and speed (capped at 15), regenerate
obstacles (oracle), set screen shake, emit a celebration burst (oracle). -/
def level_up (g : Game) (rng : Rng) : Game :=
  let bs := min (g.base_speed + 1) 15
  { g with
    level := g.level + 1
    base_speed := bs
    speed := bs
    obstacles := rng.newObstacles
    screen_shake := 10
    particles := g.particles ++ rng.levelParticles }

/-- `SnakeGame.save_high_score()`: write `str(self.high_score)` to the file. -/
def save_high_score (g : Game) : Game :=
  { g with hs_file := some (toString g.high_score) }

/-- Python `str.strip()`: drop whitespace from both ends, modelled on the
character list of the string. -/
def strip_chars (l : List Char) : List Char :=
  ((l.dropWhile Char.isWhitespace).reverse.dropWhile Char.isWhitespace).reverse

/-- Digit run to number, most significant first. -/
def digits_to_nat (l : List Char) : Nat :=
  l.foldl (fun a c => a * 10 + (c.toNat - 48)) 0

/-- Python `int(str)` on an already-stripped string: an optional sign followed
by a non-empty digit run, `none` (an exception in Python) otherwise.  Exotic
accepted forms (underscore separators, non-ASCII digits) are not modelled; no
claim depends on them. -/
def parse_int (l : List Char) : Option Int :=
  match l with
  | [] => none
  | c :: rest =>
    if c = '-' then
      if rest ≠ [] ∧ rest.all Char.isDigit then some (-(digits_to_nat rest : Int))
      else none
    else if c = '+' then
      if rest ≠ [] ∧ rest.all Char.isDigit then some (digits_to_nat rest : Int)
      else none
    else if (c :: rest).all Char.isDigit then some (digits_to_nat (c :: rest) : Int)
    else none

/-- `SnakeGame.load_high_score()` — `int(f.read().strip())` inside a catch-all
that returns 0: a missing file (`none`) or unparsable content yields 0. -/
def load_high_score (file : Option String) : Int :=
  match file with
  | none => 0
  | some s => (parse_int (strip_chars s.data)).getD 0

/-- `SnakeGame.game_over()`: enter `GAME_OVER`, persist the high score when
beaten, emit the death burst (oracle). -/
def game_over (g : Game) (rng : Rng) : Game :=
  let g1 := { g with state := GameState.gameOver }
  let g2 := if g1.score > g1.high_score
            then save_high_score { g1 with high_score := g1.score }
            else g1
  { g2 with particles := g2.particles ++ rng.deathParticles }

/-- Food-consumption branch of `update_game`: add (possibly doubled) points,
respawn the food, emit particles, and level up when the score crosses the next
multiple of 100 (`score // 100 > level - 1`, with Python floor division). -/
def eat_food (g : Game) (rng : Rng) : Option Game :=
  let points : Int := if g.double_points then 20 else 10
  let g1 := { g with score := g.score + points }
  match spawn_food g1.snake g1.obstacles rng.foodDraws with
  | none => none
  | some f =>
    let g2 := { g1 with food := f, particles := g1.particles ++ rng.foodParticles }
    some (if g2.score.fdiv 100 > g2.level - 1 then level_up g2 rng else g2)

/-- Movement half of `SnakeGame.update_game()` (everything after the power-up
spawn roll): expire power-ups, compute the candidate head, die unless
invincible, otherwise commit the head, either eat (keep the tail) or pop the
tail, and finally run the power-up collection loop. -/
def move_phase (g : Game) (rng : Rng) (now : ℚ) : Option Game :=
  let g3 := { g with
              power_ups := g.power_ups.filter
                (fun p => now - p.spawn_time < 10) }
  let newHead := stepPos g3.snake.headI g3.direction
  if check_collision g3.snake g3.obstacles newHead && !g3.invincible then
    some (game_over g3 rng)
  else
    let g4 := { g3 with snake := newHead :: g3.snake }
    match (if newHead = g4.food then eat_food g4 rng
           else some { g4 with snake := g4.snake.dropLast }) with
    | none => none
    | some g5 => some (pickup_loop newHead rng g5 g5.power_ups)

/-- `SnakeGame.update_game()`: the `PLAYING` guard, the frame counter, the
effect timers, the 1-in-200 power-up spawn roll, then `move_phase`.  Returns
`none` exactly when one of the two unbounded spawn loops fails to find a free
cell within its oracle stream (the Python process would be stuck inside
`while True` and the frame would never finish). -/
def update_game (g : Game) (rng : Rng) (now : ℚ) : Option Game :=
  if g.state ≠ GameState.playing then some g
  else
    let g1 := update_effects { g with game_time := g.game_time + 1 }
    match (if rng.powerRoll = 1 then spawn_power_up g1 rng now else some g1) with
    | none => none
    | some g2 => move_phase g2 rng now

/-- `SnakeGame.update_particles()`: update every particle of a snapshot, then
remove those whose lifetime dropped to `≤ 0`. -/
def update_particles (ps : List Particle) : List Particle :=
  (ps.map Particle.update).filter (fun p => !(decide (p.lifetime ≤ 0)))

/-- The per-frame update calls of `SnakeGame.run()`: `self.update_game()`
followed unconditionally by `self.update_particles()` (drawing excluded). -/
def loop_tick (g : Game) (rng : Rng) (now : ℚ) : Option Game :=
  (update_game g rng now).map
    (fun g1 => { g1 with particles := update_particles g1.particles })

/-- The initial snake of `reset_game`:
`[(GRID_WIDTH // 2, GRID_HEIGHT // 2)]`, a single segment. -/
def reset_snake : List Pos := [(GRID_WIDTH / 2, GRID_HEIGHT / 2)]

/-- The candidate head `update_game` computes from a pre-frame state (the
effect/spawn/expiry phases do not touch the snake or the direction). -/
def new_head_of (g : Game) : Pos := stepPos g.snake.headI g.direction

/-- Whether the frame survives the collision test (no collision, or the
invincibility still active after `update_effects`). -/
def survives_move (g : Game) : Bool :=
  !(check_collision g.snake g.obstacles (new_head_of g))
    || (update_effects g).invincible

/-- Whether a frame started from `g` consumes the food. -/
def consumes_food (g : Game) : Bool :=
  decide (g.state = GameState.playing) && survives_move g
    && decide (new_head_of g = g.food)

/-- The power-up list the collection loop of this frame iterates over (after
the optional spawn and the expiry filter). -/
def power_ups_at_pickup (g : Game) (rng : Rng) (now : ℚ) : List PowerUp :=
  let g1 := update_effects { g with game_time := g.game_time + 1 }
  let pus :=
    match (if rng.powerRoll = 1 then spawn_power_up g1 rng now else some g1) with
    | none => g1.power_ups
    | some g2 => g2.power_ups
  pus.filter (fun p => now - p.spawn_time < 10)

/-- Whether a frame started from `g` collects at least one power-up. -/
def picks_up (g : Game) (rng : Rng) (now : ℚ) : Bool :=
  decide (g.state = GameState.playing) && survives_move g
    && (power_ups_at_pickup g rng now).any
         (fun pu => (pu.x, pu.y) = new_head_of g)

/-- Run a sequence of frames, counting the food-consumption events and
recording whether any power-up was collected.  `none` propagates a frame whose
spawn loop diverged. -/
def run_retro : Game → List (Rng × ℚ) → Option (Game × Nat × Bool)
  | g, [] => some (g, 0, false)
  | g, (rng, now) :: es =>
    match update_game g rng now with
    | none => none
    | some g1 =>
      match run_retro g1 es with
      | none => none
      | some (gf, n, pk) =>
        some (gf, (if consumes_food g then 1 else 0) + n,
              picks_up g rng now || pk)

end Retro

namespace Samples

/-- A concrete playing state of the retro variant used to instantiate
theorems: one-segment snake at (5,5) heading right, food directly ahead. -/
def game0 : Retro.Game where
  state := .playing
  snake := [(5, 5)]
  direction := .right
  food := (6, 5)
  score := 0
  high_score := 0
  speed := 8
  base_speed := 8
  power_ups := []
  obstacles := []
  effects := ⟨none, none, none, none⟩
  invincible := false
  double_points := false
  game_time := 0
  level := 1
  particles := []
  screen_shake := 0
  hs_file := none

/-- A concrete random oracle: the spawn roll misses (≠ 1) and the food respawn
draw lands on the free cell (0,0). -/
def rng0 : Retro.Rng where
  powerRoll := 2
  powerType := .grow
  powerDraws := []
  foodDraws := [(0, 0)]
  foodParticles := []
  levelParticles := []
  newObstacles := []
  deathParticles := []
  pickupParticles := []

/-- Retro state whose snake occupies a closed 2×2 loop: the head at (0,0) can
step right onto (1,0), the cell the tail is about to vacate. -/
def loopGame : Retro.Game :=
  { game0 with snake := [(0, 0), (0, 1), (1, 1), (1, 0)], food := (9, 9) }

/-- A retro particle one frame away from expiry. -/
def particle1 : Retro.Particle := ⟨0, 0, 1, 0, 1, 60⟩

/-- Paused retro state carrying one live particle. -/
def pausedGame : Retro.Game :=
  { game0 with state := .paused, particles := [particle1] }

/-- Snake of `realistic_snake_game.py` forming the same 2×2 loop, not growing,
about to chase its own tail. -/
def rgSnake0 : RG.Snake where
  segments := [(0, 0), (0, 1), (1, 1), (1, 0)]
  direction := .right
  next_direction := .right
  growing := false

/-- An active power-up sitting at cell (5,5). -/
def pu55 : Retro.PowerUp := ⟨5, 5, .double_points, 300, 0⟩

/-- A GROW power-up. -/
def puGrow : Retro.PowerUp := ⟨2, 2, .grow, 300, 0⟩

/-- The state one frame after `game0`: head moved onto the food, body grown to
two segments, food respawned at the oracle draw (0,0), score 10. -/
def game1 : Retro.Game :=
  { game0 with
    game_time := 1, snake := [(6, 5), (5, 5)], food := (0, 0), score := 10 }

end Samples

/-- C1 (counterexample): in the retro grid variant the self-collision test
runs *before* the move is committed and matches the new head against the whole
current body, including the tail cell being vacated this tick.  Concretely:
snake `[(0,0),(0,1),(1,1),(1,0)]` heading right, food elsewhere (so the tail
will be dropped), candidate head `(1,0)` equal to the current tail —
`check_collision` classifies the move as a collision, and `update_game` ends
the game, contradicting the claim that such a move is not a collision. -/
theorem retro_tail_cell_counted_as_collision :
    stepPos ((0 : Int), (0 : Int)) Direction.right = (1, 0)
    ∧ Samples.loopGame.snake.getLastI = (1, 0)
    ∧ Samples.loopGame.food ≠ ((1 : Int), (0 : Int))
    ∧ Retro.check_collision Samples.loopGame.snake Samples.loopGame.obstacles
        (1, 0) = true
    ∧ Retro.update_game Samples.loopGame Samples.rng0 0 =
        some { Samples.loopGame with
               game_time := 1, state := Retro.GameState.gameOver } := by
  decide

/-- C1 (amended): in the two realistic variants the self-collision test runs
after the move is committed, so it compares the new head against exactly the
body cells still occupied after the tail shift — the vacated tail cell counts
as free when the snake is not growing; in the retro variant the pre-move
`check_collision` counts every current body cell, the vacating tail
included. -/
theorem self_collision_tail_shift :
    (∀ s : RG.Snake, s.segments ≠ [] →
      s.move.check_self_collision =
        decide (stepPos s.segments.headI s.next_direction ∈
          (if s.growing then s.segments else s.segments.dropLast)))
    ∧ (∀ (segs : List Pos) (d : Direction) (growing : Bool), segs ≠ [] →
      RS.check_self_collision (RS.moveSegs segs d growing) =
        decide (stepPos segs.headI d ∈
          (if growing then segs else segs.dropLast)))
    ∧ (∀ (snake : List Pos) (obstacles : List Retro.Obstacle) (p : Pos),
      p ∈ snake → Retro.check_collision snake obstacles p = true) := by
  refine ⟨?_, ?_, ?_⟩
  · intro s hs
    obtain ⟨h, t, hseg⟩ := List.exists_cons_of_ne_nil hs
    cases hgrow : s.growing with
    | true =>
      simp [RG.Snake.move, RG.Snake.check_self_collision,
        RG.Snake.get_head_position, hseg, hgrow]
    | false =>
      cases t with
      | nil =>
        simp [RG.Snake.move, RG.Snake.check_self_collision,
          RG.Snake.get_head_position, hseg, hgrow]
      | cons a t2 =>
        simp [RG.Snake.move, RG.Snake.check_self_collision,
          RG.Snake.get_head_position, hseg, hgrow, List.dropLast_cons₂]
  · intro segs d growing hs
    obtain ⟨h, t, hseg⟩ := List.exists_cons_of_ne_nil hs
    subst hseg
    cases growing with
    | true =>
      have hrw : (h :: t).dropLast ++ [(h :: t).getLast (List.cons_ne_nil h t)]
          = h :: t := List.dropLast_append_getLast (List.cons_ne_nil h t)
      simp [RS.moveSegs, RS.check_self_collision, hrw]
    | false =>
      cases t with
      | nil => simp [RS.moveSegs, RS.check_self_collision]
      | cons a t2 =>
        simp [RS.moveSegs, RS.check_self_collision, List.dropLast_cons₂]
  · intro snake obstacles p hp
    simp [Retro.check_collision, hp]

/-- C1 (witness): the tail-chase move of the realistic snake on a 2×2 loop is
evaluated by the amended theorem — since the new head `(1,0)` is exactly the
vacated tail, the committed move is not a self-collision. -/
theorem self_collision_tail_shift_witness :
    Samples.rgSnake0.segments ≠ []
    ∧ Samples.rgSnake0.move.check_self_collision =
        decide (stepPos Samples.rgSnake0.segments.headI
            Samples.rgSnake0.next_direction ∈
          (if Samples.rgSnake0.growing then Samples.rgSnake0.segments
           else Samples.rgSnake0.segments.dropLast)) :=
  ⟨by decide, self_collision_tail_shift.1 Samples.rgSnake0 (by decide)⟩

/-- C2 (counterexample): the retro food spawner only rejects snake cells and
obstacle cells, not power-up cells.  With snake `[(0,0)]`, no obstacles, an
active power-up at (5,5) and free cells available (e.g. (1,1)), a draw of
(5,5) is accepted, so the spawned food collides with an active item. -/
theorem retro_spawn_food_on_power_up_cell :
    Retro.spawn_food [((0 : Int), (0 : Int))] [] [(5, 5)] = some (5, 5)
    ∧ ((5, 5) : Pos) = (Samples.pu55.x, Samples.pu55.y)
    ∧ ((1, 1) : Pos) ∉ ([((0 : Int), (0 : Int))] : List Pos)
    ∧ Retro.is_obstacle_at [] (1, 1) = false
    ∧ ((1, 1) : Pos) ≠ (Samples.pu55.x, Samples.pu55.y) := by
  decide

/-- C2 (amended): every spawner, when it returns a position, returns one free
of the snake and of obstacles; the retro power-up spawner additionally avoids
the food cell.  No spawner checks other power-up cells (that is exactly what
the counterexample exploits). -/
theorem spawn_avoids_snake_and_obstacles :
    (∀ (snake : List Pos) (obstacles : List Retro.Obstacle) (draws : List Pos)
        (p : Pos), Retro.spawn_food snake obstacles draws = some p →
        p ∉ snake ∧ Retro.is_obstacle_at obstacles p = false)
    ∧ (∀ (snake : List Pos) (food : Pos) (obstacles : List Retro.Obstacle)
        (draws : List Pos) (p : Pos),
        Retro.spawn_power_up_draws snake food obstacles draws = some p →
        p ∉ snake ∧ p ≠ food ∧ Retro.is_obstacle_at obstacles p = false)
    ∧ (∀ (s : RG.Snake) (obstacles draws : List Pos) (p : Pos),
        RG.spawn_apple s obstacles draws = some p →
        s.check_collision p = false ∧ RG.is_obstacle obstacles p = false)
    ∧ (∀ (segs obstacles draws : List Pos) (p : Pos),
        RS.spawn_apple segs obstacles draws = some p →
        RS.check_collision segs p = false
          ∧ RS.is_obstacle obstacles p = false) := by
  refine ⟨?_, ?_, ?_, ?_⟩
  · intro snake obstacles draws
    induction draws with
    | nil => intro p h; simp [Retro.spawn_food] at h
    | cons d ds ih =>
      intro p h
      rw [Retro.spawn_food] at h
      by_cases hc : (!(decide (d ∈ snake))
          && !(Retro.is_obstacle_at obstacles d)) = true
      · rw [if_pos hc] at h
        obtain ⟨h1, h2⟩ := Bool.and_eq_true_iff.mp hc
        cases h
        exact ⟨by simpa using h1, by simpa using h2⟩
      · rw [if_neg hc] at h
        exact ih p h
  · intro snake food obstacles draws
    induction draws with
    | nil => intro p h; simp [Retro.spawn_power_up_draws] at h
    | cons d ds ih =>
      intro p h
      rw [Retro.spawn_power_up_draws] at h
      by_cases hc : (!(decide (d ∈ snake)) && !(decide (d = food))
          && !(Retro.is_obstacle_at obstacles d)) = true
      · rw [if_pos hc] at h
        obtain ⟨h12, h3⟩ := Bool.and_eq_true_iff.mp hc
        obtain ⟨h1, h2⟩ := Bool.and_eq_true_iff.mp h12
        cases h
        exact ⟨by simpa using h1, by simpa using h2, by simpa using h3⟩
      · rw [if_neg hc] at h
        exact ih p h
  · intro s obstacles draws
    suffices hgen : ∀ (fuel : Nat) (draws : List Pos) (p : Pos),
        RG.spawn_apple_aux s obstacles fuel draws = some p →
        s.check_collision p = false ∧ RG.is_obstacle obstacles p = false by
      intro p h
      exact hgen 100 draws p h
    intro fuel draws
    induction draws generalizing fuel with
    | nil => intro p h; cases fuel <;> simp [RG.spawn_apple_aux] at h
    | cons d ds ih =>
      intro p h
      cases fuel with
      | zero => simp [RG.spawn_apple_aux] at h
      | succ fuel =>
        rw [RG.spawn_apple_aux] at h
        by_cases hc : (!(s.check_collision d)
            && !(RG.is_obstacle obstacles d)) = true
        · rw [if_pos hc] at h
          obtain ⟨h1, h2⟩ := Bool.and_eq_true_iff.mp hc
          cases h
          exact ⟨by simpa using h1, by simpa using h2⟩
        · rw [if_neg hc] at h
          exact ih fuel p h
  · intro segs obstacles draws
    induction draws with
    | nil => intro p h; simp [RS.spawn_apple] at h
    | cons d ds ih =>
      intro p h
      rw [RS.spawn_apple] at h
      by_cases hc : (!(RS.check_collision segs d)
          && !(RS.is_obstacle obstacles d)) = true
      · rw [if_pos hc] at h
        obtain ⟨h1, h2⟩ := Bool.and_eq_true_iff.mp hc
        cases h
        exact ⟨by simpa using h1, by simpa using h2⟩
      · rw [if_neg hc] at h
        exact ih p h

/-- C2 (witness): the retro food spawner, when it accepts the draw (7,3) with
snake `[(0,0)]` and no obstacles, indeed returns a cell off the snake and off
every obstacle. -/
theorem spawn_avoids_snake_and_obstacles_witness :
    Retro.spawn_food [((0 : Int), (0 : Int))] [] [(7, 3)] = some (7, 3)
    ∧ ((7, 3) : Pos) ∉ ([((0 : Int), (0 : Int))] : List Pos)
    ∧ Retro.is_obstacle_at [] (7, 3) = false :=
  ⟨by decide,
    (spawn_avoids_snake_and_obstacles.1 [((0 : Int), (0 : Int))] [] [(7, 3)]
      (7, 3) (by decide)).1,
    (spawn_avoids_snake_and_obstacles.1 [((0 : Int), (0 : Int))] [] [(7, 3)]
      (7, 3) (by decide)).2⟩

/-- C3 (code bug): the retro `spawn_food` and the `realistic_snake.py`
`spawn_apple` are `while True` loops with no attempt cap: whenever every cell
the random generator produces is occupied (as on a nearly full board), the
loop rejects all of them and never returns — there is no 30–100-attempt budget
and no graceful skip in these two spawners. -/
theorem unbounded_spawn_never_returns :
    (∀ (snake : List Pos) (obstacles : List Retro.Obstacle) (draws : List Pos),
        (∀ d ∈ draws, d ∈ snake ∨ Retro.is_obstacle_at obstacles d = true) →
        Retro.spawn_food snake obstacles draws = none)
    ∧ (∀ segs obstacles draws : List Pos,
        (∀ d ∈ draws, RS.check_collision segs d = true
          ∨ RS.is_obstacle obstacles d = true) →
        RS.spawn_apple segs obstacles draws = none) := by
  constructor
  · intro snake obstacles draws
    induction draws with
    | nil => intro _; rfl
    | cons d ds ih =>
      intro hall
      rw [Retro.spawn_food]
      have hd := hall d (List.mem_cons_self d ds)
      have hcond : (!(decide (d ∈ snake))
          && !(Retro.is_obstacle_at obstacles d)) = false := by
        rcases hd with hd | hd <;> simp [hd]
      rw [hcond]
      exact ih (fun x hx => hall x (List.mem_cons_of_mem d hx))
  · intro segs obstacles draws
    induction draws with
    | nil => intro _; rfl
    | cons d ds ih =>
      intro hall
      rw [RS.spawn_apple]
      have hd := hall d (List.mem_cons_self d ds)
      have hcond : (!(RS.check_collision segs d)
          && !(RS.is_obstacle obstacles d)) = false := by
        rcases hd with hd | hd <;> simp [hd]
      rw [hcond]
      exact ih (fun x hx => hall x (List.mem_cons_of_mem d hx))

/-- C3 (witness): with the single cell (0,0) occupied by the snake, a draw
stream consisting of occupied cells makes the retro food spawner loop without
ever returning. -/
theorem unbounded_spawn_never_returns_witness :
    (∀ d ∈ ([((0 : Int), (0 : Int)), (0, 0)] : List Pos),
        d ∈ ([((0 : Int), (0 : Int))] : List Pos)
          ∨ Retro.is_obstacle_at [] d = true)
    ∧ Retro.spawn_food [((0 : Int), (0 : Int))] []
        [((0 : Int), (0 : Int)), (0, 0)] = none :=
  ⟨by decide,
    unbounded_spawn_never_returns.1 [((0 : Int), (0 : Int))] []
      [((0 : Int), (0 : Int)), (0, 0)] (by decide)⟩

/-- C4 (counterexample): the retro input handler ignores a reversal request
regardless of body length — it never consults the snake at all.  The retro
game starts with a single-segment snake heading right, yet pressing LEFT
leaves the direction `right`, contradicting the claim that a length-1 snake
accepts the reversal. -/
theorem retro_rejects_reversal_at_length_one :
    Retro.reset_snake.length = 1
    ∧ Direction.left = Direction.right.opposite
    ∧ Retro.handle_input_dir Direction.right Direction.left
        = Direction.right := by
  decide

/-- C4 (amended): a reversal request with body length > 1 never changes the
stored pending or current direction (realistic variants return the state
unchanged); with body length 1 the realistic variants accept the request, but
the retro variant ignores a reversal at every body length. -/
theorem reversal_rejection_amended :
    (∀ s : RG.Snake, s.segments.length > 1 →
        RG.Snake.set_direction s s.direction.opposite = s)
    ∧ (∀ (s : RG.Snake) (d : Direction), s.segments.length = 1 →
        (RG.Snake.set_direction s d).next_direction = d)
    ∧ (∀ cur : Direction, Retro.handle_input_dir cur cur.opposite = cur) := by
  refine ⟨?_, ?_, ?_⟩
  · intro s h
    simp [RG.Snake.set_direction, h]
  · intro s d h
    simp [RG.Snake.set_direction, h]
  · intro cur
    cases cur <;> decide

/-- C4 (witness): the loop snake (length 4) with current direction `right`
ignores a `left` request entirely. -/
theorem reversal_rejection_amended_witness :
    Samples.rgSnake0.segments.length > 1
    ∧ RG.Snake.set_direction Samples.rgSnake0
        Samples.rgSnake0.direction.opposite = Samples.rgSnake0 :=
  ⟨by decide, reversal_rejection_amended.1 Samples.rgSnake0 (by decide)⟩

/-- C6 (counterexample): in the retro main loop `update_particles` runs every
frame regardless of the game state, so one loop iteration in the `Paused`
state does change the particle list: the paused state with one particle of
lifetime 1 comes back with an empty particle list. -/
theorem particles_tick_while_paused :
    Samples.pausedGame.state = Retro.GameState.paused
    ∧ Retro.loop_tick Samples.pausedGame Samples.rng0 0 =
        some { Samples.pausedGame with particles := [] }
    ∧ Retro.loop_tick Samples.pausedGame Samples.rng0 0
        ≠ some Samples.pausedGame := by
  decide

/-- C6 (amended): while the state is not `Playing`, `update_game` returns the
state completely unchanged (no snake, collision or spawner tick, and food,
power-ups, obstacles and score are untouched), but the per-frame loop still
runs the particle tick unconditionally, so only the particle list may
change. -/
theorem non_playing_frame (g : Retro.Game) (rng : Retro.Rng) (now : ℚ)
    (h : g.state ≠ Retro.GameState.playing) :
    Retro.update_game g rng now = some g
    ∧ Retro.loop_tick g rng now =
        some { g with particles := Retro.update_particles g.particles } := by
  have h1 : Retro.update_game g rng now = some g := by
    rw [Retro.update_game, if_pos h]
  exact ⟨h1, by rw [Retro.loop_tick, h1]; rfl⟩

/-- C6 (witness): the amended theorem evaluated on the concrete paused
state. -/
theorem non_playing_frame_witness :
    Samples.pausedGame.state ≠ Retro.GameState.playing
    ∧ Retro.update_game Samples.pausedGame Samples.rng0 0 =
        some Samples.pausedGame
    ∧ Retro.loop_tick Samples.pausedGame Samples.rng0 0 =
        some { Samples.pausedGame with
               particles := Retro.update_particles
                 Samples.pausedGame.particles } :=
  ⟨by decide,
    (non_playing_frame Samples.pausedGame Samples.rng0 0 (by decide)).1,
    (non_playing_frame Samples.pausedGame Samples.rng0 0 (by decide)).2⟩

/-- C7: loading the high score from a missing or unparsable file yields 0 (the
embedding is total, mirroring the catch-all `except: return 0`), and
`game_over` overwrites the high-score file exactly when the current score
exceeds the stored value, writing the new score. -/
theorem high_score_io (g : Retro.Game) (rng : Retro.Rng) (s : String)
    (hbad : Retro.parse_int (Retro.strip_chars s.data) = none) :
    Retro.load_high_score none = 0
    ∧ Retro.load_high_score (some s) = 0
    ∧ (Retro.game_over g rng).hs_file =
        (if g.score > g.high_score then some (toString g.score)
         else g.hs_file) := by
  refine ⟨rfl, ?_, ?_⟩
  · simp [Retro.load_high_score, hbad]
  · by_cases hgt : g.score > g.high_score
    · simp [Retro.game_over, Retro.save_high_score, hgt]
    · simp [Retro.game_over, Retro.save_high_score, hgt]

/-- C7 (witness): an empty file content fails to parse and loads as 0, and a
game over at score 0 with stored high score 0 does not write the file. -/
theorem high_score_io_witness :
    (Retro.parse_int (Retro.strip_chars "".data) = none)
    ∧ Retro.load_high_score (some "") = 0
    ∧ (Retro.game_over Samples.game0 Samples.rng0).hs_file =
        (if Samples.game0.score > Samples.game0.high_score
         then some (toString Samples.game0.score)
         else Samples.game0.hs_file) :=
  ⟨by decide,
    (high_score_io Samples.game0 Samples.rng0 "" (by decide)).2.1,
    (high_score_io Samples.game0 Samples.rng0 "" (by decide)).2.2⟩

/-- C8: after a particle-system update, every surviving particle is the
updated image of a particle whose lifetime was strictly positive before the
call — no particle with pre-call lifetime ≤ 0 remains, in either variant (the
realistic system filters before updating; the retro sweep updates and then
removes everything at lifetime ≤ 0, which includes everything that started
at ≤ 0). -/
theorem particle_cleanup :
    (∀ (dt : ℚ) (ps : List RG.Particle) (q : RG.Particle),
        q ∈ RG.particleSystemUpdate dt ps →
        ∃ p ∈ ps, 0 < p.lifetime ∧ q = RG.Particle.update dt p)
    ∧ (∀ (ps : List Retro.Particle) (q : Retro.Particle),
        q ∈ Retro.update_particles ps →
        ∃ p ∈ ps, 0 < p.lifetime ∧ q = Retro.Particle.update p) := by
  constructor
  · intro dt ps q hq
    rw [RG.particleSystemUpdate] at hq
    obtain ⟨p, hp, rfl⟩ := List.mem_map.mp hq
    obtain ⟨hmem, hlt⟩ := List.mem_filter.mp hp
    exact ⟨p, hmem, by simpa using hlt, rfl⟩
  · intro ps q hq
    rw [Retro.update_particles] at hq
    obtain ⟨hmem, hcond⟩ := List.mem_filter.mp hq
    obtain ⟨p, hp, rfl⟩ := List.mem_map.mp hmem
    refine ⟨p, hp, ?_, rfl⟩
    have hlt : ¬ ((Retro.Particle.update p).lifetime ≤ 0) := by
      simpa using hcond
    simp [Retro.Particle.update] at hlt
    omega

/-- C8 (witness): a retro particle of lifetime 5 survives one sweep, and the
theorem produces its positive-lifetime pre-image. -/
theorem particle_cleanup_witness :
    Retro.Particle.update (Retro.Particle.mk 0 0 0 0 5 60)
      ∈ Retro.update_particles [Retro.Particle.mk 0 0 0 0 5 60]
    ∧ ∃ p ∈ [Retro.Particle.mk 0 0 0 0 5 60],
        0 < p.lifetime
          ∧ Retro.Particle.update (Retro.Particle.mk 0 0 0 0 5 60)
              = Retro.Particle.update p :=
  have hmem : Retro.Particle.update (Retro.Particle.mk 0 0 0 0 5 60)
      ∈ Retro.update_particles [Retro.Particle.mk 0 0 0 0 5 60] := by
    rw [Retro.update_particles]
    refine List.mem_filter.mpr ⟨List.mem_map_of_mem _ (List.mem_singleton.mpr rfl), ?_⟩
    simp [Retro.Particle.update]
  ⟨hmem, particle_cleanup.2 [Retro.Particle.mk 0 0 0 0 5 60] _ hmem⟩

/-- Helper: the GROW loop body appends the current last cell when the snake is
non-empty. -/
theorem grow_once_ne (s : List Pos) (h : s ≠ []) :
    Retro.grow_once s = s ++ [s.getLastI] := by
  rw [Retro.grow_once, if_neg h]

/-- Helper: the last element of a list with one cell appended. -/
theorem getLastI_concat (s : List Pos) (a : Pos) : (s ++ [a]).getLastI = a := by
  rw [List.getLastI_eq_getLast?, List.getLast?_concat]

/-- C10: applying a GROW power-up appends the current tail cell three times:
the body grows by exactly 3 and the three appended segments all sit on the old
tail cell (the body is temporarily self-overlapping). -/
theorem grow_power_up_appends_tail_three_times (g : Retro.Game)
    (pu : Retro.PowerUp) (htype : pu.type = Retro.PowerUpType.grow)
    (hne : g.snake ≠ []) :
    (Retro.apply_power_up g pu).snake =
      g.snake ++ [g.snake.getLastI, g.snake.getLastI, g.snake.getLastI]
    ∧ (Retro.apply_power_up g pu).snake.length = g.snake.length + 3 := by
  have key : Retro.grow_once (Retro.grow_once (Retro.grow_once g.snake)) =
      g.snake ++ [g.snake.getLastI, g.snake.getLastI, g.snake.getLastI] := by
    rw [grow_once_ne _ hne,
      grow_once_ne (g.snake ++ [g.snake.getLastI]) (by simp),
      getLastI_concat,
      grow_once_ne (g.snake ++ [g.snake.getLastI] ++ [g.snake.getLastI])
        (by simp),
      getLastI_concat]
    simp
  refine ⟨?_, ?_⟩
  · simp [Retro.apply_power_up, htype, key]
  · simp [Retro.apply_power_up, htype, key]

/-- C10 (witness): the GROW power-up applied to the one-segment sample snake
yields four segments, the last three all on the old tail cell. -/
theorem grow_power_up_appends_tail_three_times_witness :
    Samples.puGrow.type = Retro.PowerUpType.grow
    ∧ Samples.game0.snake ≠ []
    ∧ (Retro.apply_power_up Samples.game0 Samples.puGrow).snake =
        Samples.game0.snake ++ [Samples.game0.snake.getLastI,
          Samples.game0.snake.getLastI, Samples.game0.snake.getLastI]
    ∧ (Retro.apply_power_up Samples.game0 Samples.puGrow).snake.length =
        Samples.game0.snake.length + 3 :=
  ⟨rfl, by decide,
    (grow_power_up_appends_tail_three_times Samples.game0 Samples.puGrow rfl
      (by decide)).1,
    (grow_power_up_appends_tail_three_times Samples.game0 Samples.puGrow rfl
      (by decide)).2⟩

/-- Helper: a successful power-up spawn changes only the `power_ups` list. -/
theorem spawn_power_up_some (g : Retro.Game) (rng : Retro.Rng) (now : ℚ)
    (g2 : Retro.Game) (h : Retro.spawn_power_up g rng now = some g2) :
    g2 = { g with power_ups := g2.power_ups } := by
  rw [Retro.spawn_power_up] at h
  by_cases hlen : g.power_ups.length ≥ 3
  · rw [if_pos hlen] at h
    simp only [Option.some.injEq] at h
    subst h
    rfl
  · rw [if_neg hlen] at h
    cases hdr : Retro.spawn_power_up_draws g.snake g.food g.obstacles
        rng.powerDraws with
    | none => rw [hdr] at h; exact absurd h (by simp)
    | some p =>
      rw [hdr] at h
      simp only [Option.some.injEq] at h
      subst h
      rfl

/-- Helper: `game_over` never touches the snake. -/
theorem game_over_snake (g : Retro.Game) (rng : Retro.Rng) :
    (Retro.game_over g rng).snake = g.snake := by
  simp only [Retro.game_over, Retro.save_high_score]
  split <;> rfl

/-- Helper: the food-consumption branch never touches the snake or the
power-up list. -/
theorem eat_food_fields (g : Retro.Game) (rng : Retro.Rng) (g5 : Retro.Game)
    (h : Retro.eat_food g rng = some g5) :
    g5.snake = g.snake ∧ g5.power_ups = g.power_ups := by
  simp only [Retro.eat_food] at h
  split at h
  · exact absurd h (by simp)
  · simp only [Option.some.injEq] at h
    subst h
    constructor <;> (repeat' split) <;> simp [Retro.level_up]

/-- Helper: case analysis of the movement half of a frame — either the
candidate head collides while vulnerable (and the snake is untouched), or the
head is committed, the tail handled by the food test, and the state passed to
the power-up collection loop. -/
theorem move_phase_spec (g : Retro.Game) (rng : Retro.Rng) (now : ℚ)
    (g' : Retro.Game) (h : Retro.move_phase g rng now = some g') :
    ((Retro.check_collision g.snake g.obstacles
        (stepPos g.snake.headI g.direction) && !g.invincible) = true
      ∧ g'.snake = g.snake)
    ∨ ((Retro.check_collision g.snake g.obstacles
        (stepPos g.snake.headI g.direction) && !g.invincible) = false
      ∧ ∃ g5 : Retro.Game,
          g' = Retro.pickup_loop (stepPos g.snake.headI g.direction) rng g5
                 g5.power_ups
          ∧ g5.power_ups
              = g.power_ups.filter (fun p => now - p.spawn_time < 10)
          ∧ g5.snake = (if stepPos g.snake.headI g.direction = g.food
                        then stepPos g.snake.headI g.direction :: g.snake
                        else (stepPos g.snake.headI g.direction
                          :: g.snake).dropLast)) := by
  simp only [Retro.move_phase] at h
  by_cases hcol : (Retro.check_collision g.snake g.obstacles
      (stepPos g.snake.headI g.direction) && !g.invincible) = true
  · rw [if_pos hcol] at h
    simp only [Option.some.injEq] at h
    subst h
    exact Or.inl ⟨hcol, by rw [game_over_snake]⟩
  · have hcolf : (Retro.check_collision g.snake g.obstacles
        (stepPos g.snake.headI g.direction) && !g.invincible) = false :=
      Bool.eq_false_iff.mpr hcol
    rw [if_neg hcol] at h
    right
    by_cases hfe : stepPos g.snake.headI g.direction = g.food
    · rw [if_pos hfe] at h
      split at h
      · exact absurd h (by simp)
      · next g5 heq =>
        simp only [Option.some.injEq] at h
        subst h
        have hf := eat_food_fields _ rng g5 heq
        exact ⟨hcolf, g5, rfl, by simpa using hf.2,
          by rw [if_pos hfe]; simpa using hf.1⟩
    · rw [if_neg hfe] at h
      split at h
      · exact absurd h (by simp)
      · next g5 heq =>
        simp only [Option.some.injEq] at h heq
        subst h
        subst heq
        exact ⟨hcolf, _, rfl, rfl, by rw [if_neg hfe]⟩

/-- Helper: case analysis of a whole frame — in a non-playing state it is the
identity, and in the playing state the effect/spawn phase yields an
intermediate state that differs from the original only in the power-up list
and the effect-related fields, after which `move_phase` runs. -/
theorem update_game_split (g : Retro.Game) (rng : Retro.Rng) (now : ℚ)
    (g' : Retro.Game) (h : Retro.update_game g rng now = some g') :
    (g.state ≠ Retro.GameState.playing ∧ g' = g)
    ∨ (g.state = Retro.GameState.playing ∧ ∃ g2 : Retro.Game,
        (g2.snake = g.snake ∧ g2.direction = g.direction ∧ g2.food = g.food
          ∧ g2.obstacles = g.obstacles
          ∧ g2.invincible = (Retro.update_effects g).invincible
          ∧ g2.power_ups.filter (fun p => now - p.spawn_time < 10)
              = Retro.power_ups_at_pickup g rng now)
        ∧ Retro.move_phase g2 rng now = some g') := by
  by_cases hpl : g.state = Retro.GameState.playing
  · right
    refine ⟨hpl, ?_⟩
    rw [Retro.update_game, if_neg (fun hne => hne hpl)] at h
    simp only [] at h
    by_cases hroll : rng.powerRoll = 1
    · rw [if_pos hroll] at h
      cases hsp : Retro.spawn_power_up
          (Retro.update_effects { g with game_time := g.game_time + 1 })
          rng now with
      | none => rw [hsp] at h; exact absurd h (by simp)
      | some g2 =>
        rw [hsp] at h
        simp only [] at h
        have hchar := spawn_power_up_some _ rng now g2 hsp
        refine ⟨g2, ⟨by rw [hchar]; rfl, by rw [hchar]; rfl,
          by rw [hchar]; rfl, by rw [hchar]; rfl, by rw [hchar]; rfl, ?_⟩, h⟩
        simp [Retro.power_ups_at_pickup, hroll, hsp]
    · rw [if_neg hroll] at h
      simp only [] at h
      refine ⟨Retro.update_effects { g with game_time := g.game_time + 1 },
        ⟨rfl, rfl, rfl, rfl, rfl, ?_⟩, h⟩
      simp [Retro.power_ups_at_pickup, hroll]
  · left
    rw [Retro.update_game, if_pos hpl] at h
    simp only [Option.some.injEq] at h
    exact ⟨hpl, h.symm⟩

/-- Helper: popping `n` cells from the tail shortens the list by `n`. -/
theorem pop_n_length (n : Nat) (l : List Pos) :
    (Retro.pop_n n l).length = l.length - n := by
  induction n generalizing l with
  | zero => rfl
  | succ n ih =>
    rw [Retro.pop_n, ih, List.length_dropLast]
    omega

/-- Helper: no power-up effect — SHRINK (guarded by `length > 3`) and GROW
included — empties the snake. -/
theorem apply_power_up_snake_ne (g : Retro.Game) (pu : Retro.PowerUp)
    (hne : g.snake ≠ []) : (Retro.apply_power_up g pu).snake ≠ [] := by
  have hg1 : ∀ s : List Pos, s ≠ [] → Retro.grow_once s ≠ [] := by
    intro s hs
    rw [grow_once_ne s hs]
    simp
  cases htype : pu.type <;> simp [Retro.apply_power_up, htype, hne]
  · exact hg1 _ (hg1 _ (hg1 _ hne))
  · split
    · next hlen =>
      have hlp : 0 < (Retro.pop_n (min 2 (g.snake.length - 1))
          g.snake).length := by
        rw [pop_n_length]
        omega
      exact List.length_pos.mp hlp
    · exact hne

/-- Helper: the power-up collection loop preserves non-emptiness of the
snake. -/
theorem pickup_loop_snake_ne (newHead : Pos) (rng : Retro.Rng)
    (pus : List Retro.PowerUp) :
    ∀ g : Retro.Game, g.snake ≠ [] →
      (Retro.pickup_loop newHead rng g pus).snake ≠ [] := by
  induction pus with
  | nil => intro g hne; exact hne
  | cons pu rest ih =>
    intro g hne
    rw [Retro.pickup_loop]
    split
    · exact ih _ (apply_power_up_snake_ne g pu hne)
    · exact ih g hne

/-- Helper: when no power-up sits on the new head, the collection loop is the
identity. -/
theorem pickup_loop_no_match (newHead : Pos) (rng : Retro.Rng)
    (pus : List Retro.PowerUp) (g : Retro.Game)
    (hno : ∀ pu ∈ pus, (pu.x, pu.y) ≠ newHead) :
    Retro.pickup_loop newHead rng g pus = g := by
  induction pus with
  | nil => rfl
  | cons pu rest ih =>
    rw [Retro.pickup_loop]
    rw [if_neg (hno pu (List.mem_cons_self pu rest))]
    exact ih (fun q hq => hno q (List.mem_cons_of_mem pu hq))

/-- C9: the snake segment list never becomes empty — a full retro frame
preserves non-emptiness (the per-move tail pop follows a head insert, and the
SHRINK power-up only pops when more than three segments remain), and likewise
every power-up application and the realistic variant's move. -/
theorem snake_never_empty :
    (∀ (g : Retro.Game) (rng : Retro.Rng) (now : ℚ) (g' : Retro.Game),
        Retro.update_game g rng now = some g' → g.snake ≠ [] → g'.snake ≠ [])
    ∧ (∀ (g : Retro.Game) (pu : Retro.PowerUp), g.snake ≠ [] →
        (Retro.apply_power_up g pu).snake ≠ [])
    ∧ (∀ s : RG.Snake, s.segments ≠ [] → s.move.segments ≠ []) := by
  refine ⟨?_, apply_power_up_snake_ne, ?_⟩
  · intro g rng now g' h hne
    rcases update_game_split g rng now g' h with ⟨-, rfl⟩
      | ⟨-, g2, ⟨hsn, -, -, -, -, -⟩, hmv⟩
    · exact hne
    · rcases move_phase_spec g2 rng now g' hmv with ⟨-, hsnake⟩
        | ⟨-, g5, rfl, -, hsnake5⟩
      · rw [hsnake, hsn]; exact hne
      · apply pickup_loop_snake_ne
        rw [hsnake5]
        have hpos : 0 < g2.snake.length :=
          List.length_pos.mpr (by rw [hsn]; exact hne)
        split
        · exact List.cons_ne_nil _ _
        · apply List.length_pos.mp
          rw [List.length_dropLast]
          simp
          omega
  · intro s hne
    obtain ⟨h, t, hseg⟩ := List.exists_cons_of_ne_nil hne
    cases hgrow : s.growing <;> simp [RG.Snake.move, hseg, hgrow]

/-- C9 (witness): the concrete frame from `game0` to `game1` keeps the snake
non-empty. -/
theorem snake_never_empty_witness :
    Retro.update_game Samples.game0 Samples.rng0 0 = some Samples.game1
    ∧ Samples.game0.snake ≠ []
    ∧ Samples.game1.snake ≠ [] :=
  ⟨by decide, by decide,
    snake_never_empty.1 Samples.game0 Samples.rng0 0 Samples.game1 (by decide)
      (by decide)⟩

/-- Helper: one retro frame changes the body length by exactly one when the
food is consumed and not at all otherwise, provided no power-up is collected
this frame. -/
theorem step_length (g : Retro.Game) (rng : Retro.Rng) (now : ℚ)
    (g' : Retro.Game) (h : Retro.update_game g rng now = some g')
    (hpk : Retro.picks_up g rng now = false) :
    g'.snake.length
      = g.snake.length + (if Retro.consumes_food g then 1 else 0) := by
  rcases update_game_split g rng now g' h with ⟨hnp, heq⟩
    | ⟨hpl, g2, ⟨hsn, hdir, hfood, hobs, hinv, hpus⟩, hmv⟩
  · subst heq
    have hcf : Retro.consumes_food g' = false := by
      simp [Retro.consumes_food, hnp]
    rw [hcf]
    simp
  · have hnew : Retro.new_head_of g = stepPos g2.snake.headI g2.direction := by
      rw [Retro.new_head_of, hsn, hdir]
    rcases move_phase_spec g2 rng now g' hmv with ⟨hcol, hsnake⟩
      | ⟨hcol, g5, rfl, hpus5, hsnake5⟩
    · rw [hsn, hdir, hobs, hinv] at hcol
      obtain ⟨h1, h2⟩ := Bool.and_eq_true_iff.mp hcol
      have hsurv : Retro.survives_move g = false := by
        rw [Retro.survives_move, Retro.new_head_of, h1]
        simp at h2 ⊢
        exact h2
      have hcf : Retro.consumes_food g = false := by
        rw [Retro.consumes_food, hsurv]
        simp
      rw [hcf, hsnake, hsn]
      simp
    · rw [hsn, hdir, hobs, hinv] at hcol
      have hsurv : Retro.survives_move g = true := by
        rw [Retro.survives_move, Retro.new_head_of]
        rcases Bool.and_eq_false_iff.mp hcol with h1 | h2
        · rw [h1]; simp
        · simp at h2
          rw [h2]; simp
      have hany : ∀ pu ∈ Retro.power_ups_at_pickup g rng now,
          ¬((pu.x, pu.y) = Retro.new_head_of g) := by
        rw [Retro.picks_up, hsurv] at hpk
        simp [hpl] at hpk
        exact hpk
      have hid : Retro.pickup_loop (stepPos g2.snake.headI g2.direction) rng g5
          g5.power_ups = g5 := by
        apply pickup_loop_no_match
        intro pu hmem
        rw [← hnew]
        rw [hpus5, hpus] at hmem
        exact hany pu hmem
      rw [hid, hsnake5]
      by_cases hfe : stepPos g2.snake.headI g2.direction = g2.food
      · rw [if_pos hfe]
        have hcf : Retro.consumes_food g = true := by
          rw [Retro.consumes_food, hsurv]
          simp [hpl]
          rw [hnew, ← hfood]
          exact hfe
        rw [hcf]
        simp [hsn]
      · rw [if_neg hfe]
        have hcf : Retro.consumes_food g = false := by
          rw [Retro.consumes_food, hsurv]
          simp [hpl]
          rw [hnew, ← hfood]
          exact hfe
        rw [hcf]
        rw [List.length_dropLast]
        simp [hsn]

/-- C5: over any run of retro frames in which no power-up is collected, the
final body length is the initial length plus the number of food-consumption
events (each consumption skips exactly one tail pop); in the realistic
variant a single move adds one segment exactly when the `growing` flag was
set and otherwise keeps the length. -/
theorem growth_property :
    (∀ (g : Retro.Game) (evs : List (Retro.Rng × ℚ)) (gf : Retro.Game)
        (n : Nat), Retro.run_retro g evs = some (gf, n, false) →
        gf.snake.length = g.snake.length + n)
    ∧ (∀ s : RG.Snake,
        s.move.segments.length
          = s.segments.length + (if s.growing then 1 else 0)) := by
  constructor
  · intro g evs
    induction evs generalizing g with
    | nil =>
      intro gf n h
      rw [Retro.run_retro] at h
      simp only [Option.some.injEq, Prod.mk.injEq] at h
      obtain ⟨rfl, rfl, -⟩ := h
      rfl
    | cons e es ih =>
      intro gf n h
      obtain ⟨rng, now⟩ := e
      rw [Retro.run_retro] at h
      cases hu : Retro.update_game g rng now with
      | none => rw [hu] at h; exact absurd h (by simp)
      | some g1 =>
        rw [hu] at h
        simp only [] at h
        cases hr : Retro.run_retro g1 es with
        | none => rw [hr] at h; exact absurd h (by simp)
        | some r =>
          obtain ⟨gf1, n1, pk1⟩ := r
          rw [hr] at h
          simp only [Option.some.injEq, Prod.mk.injEq] at h
          obtain ⟨rfl, hn, hpk⟩ := h
          obtain ⟨hpk0, rfl⟩ := Bool.or_eq_false_iff.mp hpk
          have hstep := step_length g rng now g1 hu hpk0
          have hrest := ih g1 gf1 n1 hr
          rw [hrest, hstep]
          omega
  · intro s
    cases hgrow : s.growing <;>
      simp [RG.Snake.move, hgrow, List.length_dropLast]

/-- C5 (witness): the one-frame run from `game0` consumes the food once, with
no power-up collected, and the body length goes from 1 to 2. -/
theorem growth_property_witness :
    Retro.run_retro Samples.game0 [(Samples.rng0, 0)]
      = some (Samples.game1, 1, false)
    ∧ Samples.game1.snake.length = Samples.game0.snake.length + 1 :=
  ⟨by decide,
    growth_property.1 Samples.game0 [(Samples.rng0, 0)] Samples.game1 1
      (by decide)⟩
